import Mathlib

/-!
Verification of the sampling-and-aggregation engine of the envoy-logger
repository. Python sources are shallowly embedded: float fields become ℚ,
dicts become association lists, Python exceptions become an `Except` error
type, and the stateful poll loop becomes an explicit step function on the
loop's counter state.
-/

/-- Python exceptions that the embedded code can raise. -/
inductive PyError where
  | attributeError (msg : String)
  | unboundLocal (name : String)
  deriving DecidableEq, Repr

/-- Embeds `power_logger/model.py` `PowerSample`: one electrical line's
instantaneous and cumulative readings, timestamped by the local clock. -/
structure PowerSample where
  ts : ℕ
  wNow : ℚ
  rmsCurrent : ℚ
  rmsVoltage : ℚ
  reactPwr : ℚ
  apprntPwr : ℚ
  whToday : ℚ
  vahToday : ℚ
  varhLagToday : ℚ
  varhLeadToday : ℚ
  whLifetime : ℚ
  vahLifetime : ℚ
  varhLagLifetime : ℚ
  varhLeadLifetime : ℚ
  whLastSevenDays : ℚ
  deriving DecidableEq, Repr

/-- Embeds `PowerSample.pwrFactor`: `1.0` below the `10.0` apparent-power
noise floor, else `wNow / apprntPwr`. -/
def PowerSample.pwrFactor (s : PowerSample) : ℚ :=
  if s.apprntPwr < 10 then 1 else s.wNow / s.apprntPwr

/-- Embeds `power_logger/model.py` `EIMSample`: an aggregate electrical
sample owning per-line `PowerSample`s (constructed as `EIMLineSample`s
sharing the parent timestamp). -/
structure EIMSample where
  ts : ℕ
  lines : List PowerSample
  deriving DecidableEq, Repr

/-- Embeds `EIMSample._sum_all_lines`: `x = 0.0; for line in lines: x += getattr(line, propname)`. -/
def EIMSample.sum_all_lines (s : EIMSample) (prop : PowerSample → ℚ) : ℚ :=
  s.lines.foldl (fun x line => x + prop line) 0

def EIMSample.wNow (s : EIMSample) : ℚ := s.sum_all_lines PowerSample.wNow
def EIMSample.reactPwr (s : EIMSample) : ℚ := s.sum_all_lines PowerSample.reactPwr
def EIMSample.apprntPwr (s : EIMSample) : ℚ := s.sum_all_lines PowerSample.apprntPwr
def EIMSample.whToday (s : EIMSample) : ℚ := s.sum_all_lines PowerSample.whToday
def EIMSample.vahToday (s : EIMSample) : ℚ := s.sum_all_lines PowerSample.vahToday
def EIMSample.varhLagToday (s : EIMSample) : ℚ := s.sum_all_lines PowerSample.varhLagToday
def EIMSample.varhLeadToday (s : EIMSample) : ℚ := s.sum_all_lines PowerSample.varhLeadToday
def EIMSample.whLifetime (s : EIMSample) : ℚ := s.sum_all_lines PowerSample.whLifetime
def EIMSample.vahLifetime (s : EIMSample) : ℚ := s.sum_all_lines PowerSample.vahLifetime
def EIMSample.varhLagLifetime (s : EIMSample) : ℚ := s.sum_all_lines PowerSample.varhLagLifetime
def EIMSample.varhLeadLifetime (s : EIMSample) : ℚ := s.sum_all_lines PowerSample.varhLeadLifetime
def EIMSample.whLastSevenDays (s : EIMSample) : ℚ := s.sum_all_lines PowerSample.whLastSevenDays

/-- Embeds `EIMSample.pwrFactor`: same noise-floor rule over the summed lines. -/
def EIMSample.pwrFactor (s : EIMSample) : ℚ :=
  if s.apprntPwr < 10 then 1 else s.wNow / s.apprntPwr

/-- `foldl`-accumulation of a projection equals the sum over the mapped list. -/
theorem sum_all_lines_eq_sum (s : EIMSample) (prop : PowerSample → ℚ) :
    s.sum_all_lines prop = (s.lines.map prop).sum := by
  show List.foldl (fun x line => x + prop line) 0 s.lines = (s.lines.map prop).sum
  induction s.lines using List.reverseRecOn with
  | nil => simp
  | append_singleton xs x ih => simp [List.foldl_append, ih]

/-- C9: For every PowerSample and every AggregateElectricalSample, the derived
powerFactor equals 1.0 whenever apparent power is strictly less than 10.0
(regardless of the sign or magnitude of active power), and otherwise equals
activePower divided by apparentPower. -/
theorem pwrFactor_spec (p : PowerSample) (e : EIMSample) :
    (p.apprntPwr < 10 → p.pwrFactor = 1) ∧
    (¬ p.apprntPwr < 10 → p.pwrFactor = p.wNow / p.apprntPwr) ∧
    (e.apprntPwr < 10 → e.pwrFactor = 1) ∧
    (¬ e.apprntPwr < 10 → e.pwrFactor = e.wNow / e.apprntPwr) := by
  refine ⟨fun h => ?_, fun h => ?_, fun h => ?_, fun h => ?_⟩ <;>
    simp [PowerSample.pwrFactor, EIMSample.pwrFactor, h]

/-- A concrete line sample used in witnesses: apparent power 3 (below the
noise floor), negative active power. -/
def sampleLineA : PowerSample :=
  ⟨0, -7, 1, 230, 2, 3, 10, 11, 12, 13, 100, 110, 120, 130, 70⟩

/-- A concrete line sample used in witnesses: apparent power 20 (above the
noise floor). -/
def sampleLineB : PowerSample :=
  ⟨0, 5, 1, 230, 2, 20, 20, 21, 22, 23, 200, 210, 220, 230, 140⟩

/-- Witness for C9 at concrete samples. -/
theorem pwrFactor_spec_witness :
    sampleLineA.pwrFactor = 1 ∧
    (EIMSample.mk 0 [sampleLineB]).pwrFactor = 5 / 20 := by
  have hA := (pwrFactor_spec sampleLineA (EIMSample.mk 0 [sampleLineB])).1
  have hB := (pwrFactor_spec sampleLineA (EIMSample.mk 0 [sampleLineB])).2.2.2
  refine ⟨hA (by norm_num [sampleLineA]), ?_⟩
  have h20 : (EIMSample.mk 0 [sampleLineB]).apprntPwr = 20 := by
    norm_num [EIMSample.apprntPwr, EIMSample.sum_all_lines, sampleLineB]
  have h5 : (EIMSample.mk 0 [sampleLineB]).wNow = 5 := by
    norm_num [EIMSample.wNow, EIMSample.sum_all_lines, sampleLineB]
  rw [hB (by rw [h20]; norm_num), h20, h5]

/-- C10: For every AggregateElectricalSample with a non-empty line list, every
summed numeric attribute (active/reactive/apparent power, energy counters
today/lifetime/last-seven-days) equals the arithmetic sum of that attribute
over its constituent line samples. -/
theorem eim_sums_are_line_sums (s : EIMSample) (hne : s.lines ≠ []) :
    s.wNow = (s.lines.map PowerSample.wNow).sum ∧
    s.reactPwr = (s.lines.map PowerSample.reactPwr).sum ∧
    s.apprntPwr = (s.lines.map PowerSample.apprntPwr).sum ∧
    s.whToday = (s.lines.map PowerSample.whToday).sum ∧
    s.vahToday = (s.lines.map PowerSample.vahToday).sum ∧
    s.varhLagToday = (s.lines.map PowerSample.varhLagToday).sum ∧
    s.varhLeadToday = (s.lines.map PowerSample.varhLeadToday).sum ∧
    s.whLifetime = (s.lines.map PowerSample.whLifetime).sum ∧
    s.vahLifetime = (s.lines.map PowerSample.vahLifetime).sum ∧
    s.varhLagLifetime = (s.lines.map PowerSample.varhLagLifetime).sum ∧
    s.varhLeadLifetime = (s.lines.map PowerSample.varhLeadLifetime).sum ∧
    s.whLastSevenDays = (s.lines.map PowerSample.whLastSevenDays).sum := by
  refine ⟨?_, ?_, ?_, ?_, ?_, ?_, ?_, ?_, ?_, ?_, ?_, ?_⟩ <;>
    apply sum_all_lines_eq_sum

/-- Witness for C10 at a two-line aggregate. -/
theorem eim_sums_are_line_sums_witness :
    (EIMSample.mk 0 [sampleLineA, sampleLineB]).wNow =
      ([sampleLineA, sampleLineB].map PowerSample.wNow).sum := by
  exact (eim_sums_are_line_sums (EIMSample.mk 0 [sampleLineA, sampleLineB])
    (by simp)).1

/-!
Cadence controller: `SamplingLoop.get_sample` computes
`time_to_next = self.interval - (now.timestamp() % self.interval)`.
Timestamps are modelled as rationals; Python float `%` with a positive
modulus is `a - b * floor(a / b)`.
-/

/-- Python `%` on floats with positive modulus: `a - b * ⌊a / b⌋`. -/
def pyFmod (a b : ℚ) : ℚ := a - b * ⌊a / b⌋

/-- Embeds `SamplingLoop.interval = 10` (seconds). -/
def SamplingLoop.interval : ℚ := 10

/-- Embeds the delay computation of `SamplingLoop.get_sample`, parametric in
the interval as the code is in `self.interval`. -/
def time_to_next (interval now : ℚ) : ℚ := interval - pyFmod now interval

/-- C5 counterexample: at `now` exactly on a boundary (`now = 0`,
`interval = 10`) the computed delay is the full interval `10`, which is not
in the claimed half-open range `[0, interval)`. -/
theorem time_to_next_range_counterexample :
    time_to_next SamplingLoop.interval 0 = 10 ∧
    ¬ time_to_next SamplingLoop.interval 0 < SamplingLoop.interval := by
  norm_num [time_to_next, pyFmod, SamplingLoop.interval]

/-- C5 amended: for every interval > 0 and every wall-clock time now, the
delay equals `interval - (now mod interval)`, lies in the half-open range
`(0, interval]`, and `now + delay` lands exactly on a multiple of the
interval. -/
theorem time_to_next_spec (interval now : ℚ) (hpos : 0 < interval) :
    time_to_next interval now = interval - pyFmod now interval ∧
    0 < time_to_next interval now ∧
    time_to_next interval now ≤ interval ∧
    ∃ k : ℤ, now + time_to_next interval now = k * interval := by
  have hfloor_le : (⌊now / interval⌋ : ℚ) * interval ≤ now := by
    have h := Int.floor_le (now / interval)
    calc (⌊now / interval⌋ : ℚ) * interval ≤ (now / interval) * interval := by
          exact mul_le_mul_of_nonneg_right h (le_of_lt hpos)
      _ = now := by field_simp
  have hlt : now < ((⌊now / interval⌋ : ℚ) + 1) * interval := by
    have h := Int.lt_floor_add_one (now / interval)
    calc now = (now / interval) * interval := by field_simp
      _ < ((⌊now / interval⌋ : ℚ) + 1) * interval := by
          exact mul_lt_mul_of_pos_right h hpos
  refine ⟨rfl, ?_, ?_, ⟨⌊now / interval⌋ + 1, ?_⟩⟩
  · simp only [time_to_next, pyFmod]
    nlinarith
  · simp only [time_to_next, pyFmod]
    nlinarith
  · simp only [time_to_next, pyFmod]
    push_cast
    ring


/-!
Battery sub-sampling: `SamplingLoop.get_battery_data` fetches battery data
only when the counter has reached at least `interval_battery - 1`, otherwise
it increments; on fetch it resets the counter to 0. The counter is
pre-seeded at construction to `interval_battery` itself. Embedded
parametrically in the ratio `N` as the code is in `self.interval_battery`.
-/

/-- Embeds `SamplingLoop.interval_battery = 6`. -/
def SamplingLoop.interval_battery : ℕ := 6

/-- Embeds one call of `SamplingLoop.get_battery_data` at ratio `N`: returns
whether battery data is fetched this call, and the updated counter. -/
def batteryStep (N c : ℕ) : Bool × ℕ :=
  if c < N - 1 then (false, c + 1) else (true, 0)

/-- The source's `get_battery_data` is the `N = interval_battery` instance. -/
def get_battery_data (c : ℕ) : Bool × ℕ := batteryStep SamplingLoop.interval_battery c

/-- The counter value before call number `k` (0-indexed); the seed is
`interval_battery_counter = interval_battery`, i.e. `N`. -/
def batteryState (N : ℕ) : ℕ → ℕ
  | 0 => N
  | k + 1 => (batteryStep N (batteryState N k)).2

/-- Whether the battery fetch fires on call number `k` (0-indexed). -/
def batteryFetch (N k : ℕ) : Bool := (batteryStep N (batteryState N k)).1

theorem succ_mod_eq_zero_iff (N k : ℕ) (hN : 1 ≤ N) :
    (k + 1) % N = 0 ↔ k % N = N - 1 := by
  have hd := Nat.div_add_mod k N
  have hm : k % N < N := Nat.mod_lt _ (by omega)
  constructor
  · intro h
    rcases Nat.dvd_of_mod_eq_zero h with ⟨t, ht⟩
    by_contra hne
    rcases Nat.lt_trichotomy t (k / N + 1) with h1 | h1 | h1
    · have h2 : N * t ≤ N * (k / N) := Nat.mul_le_mul_left N (by omega)
      omega
    · have h2 : N * t = N * (k / N) + N := by rw [h1]; ring
      omega
    · have h2 : N * (k / N + 1) ≤ N * t := Nat.mul_le_mul_left N (by omega)
      have h3 : N * (k / N + 1) = N * (k / N) + N := by ring
      omega
  · intro h
    have h2 : N * (k / N + 1) = N * (k / N) + N := by ring
    have h3 : k + 1 = N * (k / N + 1) := by omega
    rw [h3, Nat.mul_mod_right]

theorem batteryState_succ (N : ℕ) (hN : 1 ≤ N) (k : ℕ) :
    batteryState N (k + 1) = k % N := by
  induction k with
  | zero =>
      show (batteryStep N N).2 = 0 % N
      have h : ¬ (N < N - 1) := by omega
      simp [batteryStep, h]
  | succ k ih =>
      show (batteryStep N (batteryState N (k + 1))).2 = (k + 1) % N
      rw [ih]
      have hm : k % N < N := Nat.mod_lt _ (by omega)
      by_cases h : k % N < N - 1
      · have hd := Nat.div_add_mod k N
        have h2 : (k + 1) % N = k % N + 1 := by
          have h3 : k + 1 = N * (k / N) + (k % N + 1) := by omega
          rw [h3, Nat.mul_add_mod]
          exact Nat.mod_eq_of_lt (by omega)
        simp [batteryStep, h, h2]
      · have hEq : k % N = N - 1 := by omega
        have h2 : (k + 1) % N = 0 := (succ_mod_eq_zero_iff N k hN).mpr hEq
        simp [batteryStep, h, h2]

theorem batteryFetch_eq (N : ℕ) (hN : 1 ≤ N) (k : ℕ) :
    batteryFetch N k = decide (k % N = 0) := by
  cases k with
  | zero =>
      have h : ¬ (N < N - 1) := by omega
      simp [batteryFetch, batteryState, batteryStep, h]
  | succ k =>
      unfold batteryFetch
      rw [batteryState_succ N hN k]
      by_cases h : k % N < N - 1
      · have h2 : ¬ ((k + 1) % N = 0) := by
          intro hc
          have := (succ_mod_eq_zero_iff N k hN).mp hc
          omega
        simp [batteryStep, h, h2]
      · have hm : k % N < N := Nat.mod_lt _ (by omega)
        have hEq : k % N = N - 1 := by omega
        have h2 : (k + 1) % N = 0 := (succ_mod_eq_zero_iff N k hN).mpr hEq
        simp [batteryStep, h, h2]

/-- C7: For sub-sample ratio N (battery telemetry), the battery-fetch decision
returns true exactly once in every N consecutive calls, and — because the
counter is pre-seeded at construction — it returns true on the very first
call. -/
theorem battery_subsample_spec (N : ℕ) (hN : 1 ≤ N) :
    batteryFetch N 0 = true ∧
    ∀ m : ℕ,
      ((Finset.range N).filter (fun i => batteryFetch N (m + i) = true)).card = 1 := by
  have hN0 : 0 < N := by omega
  constructor
  · rw [batteryFetch_eq N hN 0]
    simp
  · intro m
    have hkey : ∀ i, batteryFetch N (m + i) = true ↔ (m + i) % N = 0 := by
      intro i
      rw [batteryFetch_eq N hN]
      simp
    have hmem : (m + (N - m % N) % N) % N = 0 := by
      by_cases hm0 : m % N = 0
      · have h1 : (N - m % N) % N = 0 := by
          rw [hm0, Nat.sub_zero, Nat.mod_self]
        rw [h1, Nat.add_zero, hm0]
      · have hmlt : m % N < N := Nat.mod_lt _ hN0
        have hi0eq : (N - m % N) % N = N - m % N := Nat.mod_eq_of_lt (by omega)
        have hd := Nat.div_add_mod m N
        have hmul : N * (m / N + 1) = N * (m / N) + N := by ring
        have hsum : m + (N - m % N) % N = N * (m / N + 1) := by omega
        rw [hsum, Nat.mul_mod_right]
    have huniq : ∀ j, j < N → (m + j) % N = 0 → j = (N - m % N) % N := by
      intro j hj hjmod
      have hdvd1 : N ∣ m + j := Nat.dvd_of_mod_eq_zero hjmod
      have hdvd2 : N ∣ m + (N - m % N) % N := Nat.dvd_of_mod_eq_zero hmem
      have hi0lt : (N - m % N) % N < N := Nat.mod_lt _ hN0
      rcases le_total j ((N - m % N) % N) with hle | hle
      · have h3 : N ∣ (m + (N - m % N) % N) - (m + j) := Nat.dvd_sub' hdvd2 hdvd1
        have h4 : (m + (N - m % N) % N) - (m + j) = (N - m % N) % N - j := by omega
        rw [h4] at h3
        have h5 := Nat.eq_zero_of_dvd_of_lt h3 (by omega)
        omega
      · have h3 : N ∣ (m + j) - (m + (N - m % N) % N) := Nat.dvd_sub' hdvd1 hdvd2
        have h4 : (m + j) - (m + (N - m % N) % N) = j - (N - m % N) % N := by omega
        rw [h4] at h3
        have h5 := Nat.eq_zero_of_dvd_of_lt h3 (by omega)
        omega
    have hset :
        (Finset.range N).filter (fun i => batteryFetch N (m + i) = true) =
          {(N - m % N) % N} := by
      apply Finset.eq_singleton_iff_unique_mem.mpr
      constructor
      · simp only [Finset.mem_filter, Finset.mem_range]
        exact ⟨Nat.mod_lt _ hN0, (hkey _).mpr hmem⟩
      · intro j hj
        simp only [Finset.mem_filter, Finset.mem_range] at hj
        exact huniq j hj.1 ((hkey j).mp hj.2)
    rw [hset, Finset.card_singleton]

/-- Witness for C7 at the code's ratio `interval_battery = 6`, window
starting at call 2. -/
theorem battery_subsample_spec_witness :
    batteryFetch SamplingLoop.interval_battery 0 = true ∧
    ((Finset.range SamplingLoop.interval_battery).filter
      (fun i => batteryFetch SamplingLoop.interval_battery (2 + i) = true)).card = 1 := by
  have h := battery_subsample_spec SamplingLoop.interval_battery
    (by norm_num [SamplingLoop.interval_battery])
  exact ⟨h.1, h.2 2⟩

/-!
Fault-tolerant poll loop: `SamplingLoop.run` keeps one local counter
`timeout_count`. A transient device timeout (during the fetches) increments
it, skips the write, and raises once it reaches 10. Any exception during the
persist (`write_to_influxdb` / `write_to_influxdb_hourly`) increments the
same counter, sleeps 50s, and raises once the counter reaches 10. A cycle in
which both writes succeed resets the counter to 0. One loop iteration is
embedded as a step function on the counter, classified by the cycle outcome.
-/

/-- Outcome of one cycle of the `while True` loop in `SamplingLoop.run`:
a transient timeout during the device fetches, a fully successful cycle, or
an exception while persisting. -/
inductive CycleOutcome where
  | timeout
  | success
  | persistFail
  deriving DecidableEq, Repr

/-- How the run ends when a counter ceiling is reached. -/
inductive RunExit where
  | fatalTimeout
  | fatalPersist
  deriving DecidableEq, Repr

/-- Embeds one iteration of `SamplingLoop.run` on the `timeout_count`
counter. Returns the updated counter plus whether `write_to_influxdb` was
invoked this cycle, or the fatal escalation. -/
def run_step (tc : ℕ) : CycleOutcome → Except RunExit (ℕ × Bool)
  | .timeout =>
      if tc + 1 ≥ 10 then .error .fatalTimeout else .ok (tc + 1, false)
  | .success => .ok (0, true)
  | .persistFail =>
      if tc + 1 ≥ 10 then .error .fatalPersist else .ok (tc + 1, true)

/-- Iterates `run_step` over a list of cycle outcomes, yielding the final
counter value or the fatal escalation that ended the run. -/
def run_proc (tc : ℕ) : List CycleOutcome → Except RunExit ℕ
  | [] => .ok tc
  | o :: os =>
      match run_step tc o with
      | .error e => .error e
      | .ok (tc', _) => run_proc tc' os

/-- Counter pair described by the spec's words: a consecutive-timeout counter
and a *separate* consecutive-persist-failure counter. -/
structure TwoCounters where
  timeouts : ℕ
  persistFails : ℕ
  deriving DecidableEq, Repr

/-- Spec-described step, for comparison with `run_step`: a timeout advances
only `timeouts`, a persist failure only `persistFails`, each with its own
ceiling of 10, and a fully successful persist resets both to zero. -/
def two_counter_step (c : TwoCounters) : CycleOutcome → Except RunExit TwoCounters
  | .timeout =>
      if c.timeouts + 1 ≥ 10 then .error .fatalTimeout
      else .ok { c with timeouts := c.timeouts + 1 }
  | .success => .ok ⟨0, 0⟩
  | .persistFail =>
      if c.persistFails + 1 ≥ 10 then .error .fatalPersist
      else .ok { c with persistFails := c.persistFails + 1 }

/-- Iterates `two_counter_step`. -/
def two_counter_proc (c : TwoCounters) : List CycleOutcome → Except RunExit TwoCounters
  | [] => .ok c
  | o :: os =>
      match two_counter_step c o with
      | .error e => .error e
      | .ok c' => two_counter_proc c' os

/-- C1 counterexample: one timeout followed by nine persist failures. The
code's single shared counter reaches 10 and escalates fatally on the ninth
persist failure, whereas the spec's two separate counters would stand at
timeouts = 1, persistFails = 9 with no escalation — so a timeout does
advance the count that persist failures escalate on. -/
theorem run_counters_counterexample :
    run_proc 0 (.timeout :: List.replicate 9 .persistFail) = .error .fatalPersist ∧
    two_counter_proc ⟨0, 0⟩ (.timeout :: List.replicate 9 .persistFail) =
      .ok ⟨1, 9⟩ := by
  constructor <;> rfl

/-- C1 amended: the poller maintains a single consecutive-failure counter
shared by transient timeouts and persist failures — each timeout and each
persist failure increments that same counter (escalating fatally when it
reaches 10), and a fully successful persist of a cycle's data resets it to
zero. -/
theorem run_shared_counter_spec (tc : ℕ) :
    (tc + 1 < 10 →
      run_step tc .timeout = .ok (tc + 1, false) ∧
      run_step tc .persistFail = .ok (tc + 1, true)) ∧
    (tc + 1 ≥ 10 →
      run_step tc .timeout = .error .fatalTimeout ∧
      run_step tc .persistFail = .error .fatalPersist) ∧
    run_step tc .success = .ok (0, true) := by
  refine ⟨fun h => ⟨?_, ?_⟩, fun h => ⟨?_, ?_⟩, rfl⟩ <;>
    simp [run_step] <;> omega

/-- Witness for the amended C1 at counter values 3 and 9. -/
theorem run_shared_counter_spec_witness :
    run_step 3 .timeout = .ok (4, false) ∧
    run_step 3 .persistFail = .ok (4, true) ∧
    run_step 9 .timeout = .error .fatalTimeout ∧
    run_step 9 .persistFail = .error .fatalPersist ∧
    run_step 3 .success = .ok (0, true) :=
  ⟨((run_shared_counter_spec 3).1 (by norm_num)).1,
   ((run_shared_counter_spec 3).1 (by norm_num)).2,
   ((run_shared_counter_spec 9).2.1 (by norm_num)).1,
   ((run_shared_counter_spec 9).2.1 (by norm_num)).2,
   (run_shared_counter_spec 3).2.2⟩

/-- C6: each transient timeout below the ceiling skips that cycle's write
(no `write_to_influxdb` call) and increments the consecutive counter;
10 consecutive timeouts with no intervening success escalate fatally on the
10th (9 alone do not), and 9 timeouts followed by one fully successful cycle
reset the counter to 0. -/
theorem run_timeout_policy :
    (∀ tc, tc + 1 < 10 → run_step tc .timeout = .ok (tc + 1, false)) ∧
    run_proc 0 (List.replicate 10 .timeout) = .error .fatalTimeout ∧
    run_proc 0 (List.replicate 9 .timeout) = .ok 9 ∧
    run_proc 0 (List.replicate 9 .timeout ++ [.success]) = .ok 0 := by
  refine ⟨fun tc h => ?_, rfl, rfl, rfl⟩
  simp [run_step]
  omega

/-- Witness for C6 with the universally quantified part instantiated at
counter value 0. -/
theorem run_timeout_policy_witness :
    run_step 0 .timeout = .ok (1, false) ∧
    run_proc 0 (List.replicate 10 .timeout) = .error .fatalTimeout ∧
    run_proc 0 (List.replicate 9 .timeout ++ [.success]) = .ok 0 :=
  ⟨run_timeout_policy.1 0 (by norm_num), run_timeout_policy.2.1,
   run_timeout_policy.2.2.2⟩

/-!
Stale-data filter and high-rate point construction. The inverter dicts are
embedded as association lists from serial to sample. The repository file
defining `filter_new_inverter_data` and the sample classes it filters is not
among the provided sources; the filter is modelled from the spec, while
`get_inverter_data` itself follows the source.
-/

/-- Embeds `InverterSample` with the fields `point_from_inverter` reads:
per-serial instantaneous watts plus a device-reported timestamp. -/
structure InverterSample where
  serial : String
  ts : ℕ
  watts : ℚ
  deriving DecidableEq, Repr

/-- Modelled from the spec: `filter_new_inverter_data(current, previous)`
keeps each serial of `current` whose full raw record differs from the record
stored for that serial in `previous` (`envoy_logger/model.py` is not among
the provided sources). -/
def filter_new_inverter_data (current previous : List (String × InverterSample)) :
    List (String × InverterSample) :=
  current.filter (fun sr => previous.lookup sr.1 != some sr.2)

/-- Embeds `SamplingLoop.get_inverter_data` on explicit state: takes the
stored `prev_inverter_data` and the freshly fetched dict, returns the
filtered result together with the updated stored snapshot. -/
def get_inverter_data (prev : Option (List (String × InverterSample)))
    (fetched : List (String × InverterSample)) :
    List (String × InverterSample) × Option (List (String × InverterSample)) :=
  match prev with
  | none => ([], some fetched)
  | some p => (filter_new_inverter_data fetched p, some fetched)

/-- C8: On the very first poll (stored previous inverter snapshot is None),
the inverter stale-data filter returns an empty mapping for any non-empty
current snapshot; and on every poll, first or not, the stored previous
snapshot is overwritten with the current raw fetch. -/
theorem get_inverter_data_spec (fetched : List (String × InverterSample))
    (prev : Option (List (String × InverterSample))) (hne : fetched ≠ []) :
    (get_inverter_data none fetched).1 = [] ∧
    (get_inverter_data prev fetched).2 = some fetched := by
  refine ⟨rfl, ?_⟩
  cases prev <;> rfl

/-- A concrete inverter sample for witnesses. -/
def invSampleA : InverterSample := ⟨"SN9", 100, 250⟩

/-- Witness for C8 at a one-entry snapshot. -/
theorem get_inverter_data_spec_witness :
    (get_inverter_data none [("SN9", invSampleA)]).1 = [] ∧
    (get_inverter_data (some []) [("SN9", invSampleA)]).2 =
      some [("SN9", invSampleA)] :=
  get_inverter_data_spec [("SN9", invSampleA)] (some []) (by simp)

/-- Embeds an influxdb `Point`: measurement name, optional timestamp, tags
and numeric fields in insertion order. -/
structure Point where
  name : String
  time : Option ℕ := none
  tags : List (String × String)
  fields : List (String × ℚ)
  deriving DecidableEq, Repr

/-- The configuration values the sampling loop reads: the deployment source
tag, the configured inverter serials (`cfg.inverters.keys()`), and the extra
tags applied by `cfg.apply_tags_to_inverter_point`. -/
structure Config where
  source_tag : String
  inverters : List String
  inverter_tags : String → List (String × String)

/-- Embeds `SamplingLoop.idb_point_from_line`. -/
def idb_point_from_line (cfg : Config) (measurement_type : String) (idx : ℕ)
    (data : PowerSample) : Point :=
  { name := measurement_type ++ "-line" ++ toString idx
    time := some data.ts
    tags := [("source", cfg.source_tag), ("measurement-type", measurement_type),
             ("line-idx", toString idx)]
    fields := [("P", data.wNow), ("Q", data.reactPwr), ("S", data.apprntPwr),
               ("I_rms", data.rmsCurrent), ("V_rms", data.rmsVoltage),
               ("whToday", data.whToday), ("whLifetime", data.whLifetime)] }

/-- Embeds `SamplingLoop.point_from_inverter`. -/
def point_from_inverter (cfg : Config) (inverter : InverterSample) : Point :=
  { name := "inverter-production-" ++ inverter.serial
    time := some inverter.ts
    tags := [("source", cfg.source_tag), ("measurement-type", "inverter"),
             ("serial", inverter.serial)] ++ cfg.inverter_tags inverter.serial
    fields := [("P", inverter.watts)] }

/-- Embeds one per-battery-unit record of a `BatteriesSample`. -/
structure Battery where
  serial_num : String
  encharge_capacity : ℕ
  percentFull : ℚ
  temperature : ℚ
  maxCellTemp : ℚ
  led_status : ℚ
  deriving DecidableEq, Repr

/-- Embeds `BatteriesSample`: a timestamped list of battery records. -/
structure BatteriesSample where
  ts : ℕ
  batteries : List Battery
  deriving DecidableEq, Repr

/-- The point built for one battery record inside the loop body of
`SamplingLoop.points_from_batteries`. -/
def battery_point (cfg : Config) (ts : ℕ) (battery : Battery) : Point :=
  { name := "battery-" ++ toString battery.encharge_capacity ++ "-" ++ battery.serial_num
    time := some ts
    tags := [("source", cfg.source_tag), ("measurement-type", "battery"),
             ("serial", battery.serial_num)]
    fields := [("percentFull", battery.percentFull),
               ("temperature", battery.temperature),
               ("maxCellTemp", battery.maxCellTemp),
               ("led_status", battery.led_status)] }

/-- Embeds `SamplingLoop.points_from_batteries`. In the source the
`battery_points.append(p)` statement sits outside the `for` loop, so the
loop merely rebinds the local `p` and only the point built for the last
battery record is appended; with an empty record list the local `p` was
never assigned and reading it raises `UnboundLocalError`. -/
def points_from_batteries (cfg : Config) (batteries : BatteriesSample) :
    Except PyError (List Point) :=
  match batteries.batteries.foldl
      (fun _ battery => some (battery_point cfg batteries.ts battery)) none with
  | none => .error (.unboundLocal "p")
  | some p => .ok [p]

/-- An empty configuration used in concrete evaluations. -/
def cfg0 : Config := ⟨"envoy", [], fun _ => []⟩

/-- Concrete battery records for evaluations. -/
def batteryA : Battery := ⟨"B1", 3500, 55, 30, 31, 1⟩

def batteryB : Battery := ⟨"B2", 3500, 60, 29, 33, 1⟩

/-- C3 evaluation: a batteries sample with two battery records yields only
one point — the one for the last record — because the `append` sits outside
the loop; the claim's one-point-per-battery property fails. -/
theorem points_from_batteries_last_only :
    (BatteriesSample.mk 5 [batteryA, batteryB]).batteries.length = 2 ∧
    points_from_batteries cfg0 (BatteriesSample.mk 5 [batteryA, batteryB]) =
      .ok [battery_point cfg0 5 batteryB] :=
  ⟨rfl, rfl⟩

/-!
`SampleData` parsing (`power_logger/model.py`) and
`SamplingLoop.get_high_rate_points`. Raw payload entries carry a `type` tag,
a `measurementType` tag and line records; `SampleData.__init__` starts all
three aggregate fields at `None` and assigns each one when a matching
`(type, measurementType)` entry is seen (later matches overwrite earlier
ones, as in the Python loops). Device timestamps are never trusted: each
parsed line gets the poll-cycle timestamp.
-/

/-- One raw entry under the payload's `consumption`/`production` keys. Line
records are carried in parsed shape; any timestamp they mention is ignored
at construction. -/
structure RawEIM where
  type_ : String
  measurementType : String
  lines : List PowerSample
  deriving DecidableEq, Repr

/-- Embeds `EIMSample.__init__`: adopt the supplied local-clock timestamp
and build one line sample per raw line record, each stamped with the parent
timestamp (`EIMLineSample` passes `parent.ts`). -/
def EIMSample.ofRaw (data : RawEIM) (ts : ℕ) : EIMSample :=
  ⟨ts, data.lines.map (fun l => { l with ts := ts })⟩

/-- The raw poll payload consumed by `SampleData.__init__`. -/
structure RawPayload where
  consumption : List RawEIM
  production : List RawEIM
  deriving DecidableEq, Repr

/-- Embeds `power_logger/model.py` `SampleData`: at most one of each
aggregate class, each field `None` until an entry matches. -/
structure SampleData where
  ts : ℕ
  net_consumption : Option EIMSample
  total_consumption : Option EIMSample
  total_production : Option EIMSample
  deriving DecidableEq, Repr

/-- One iteration of the `for consumption_data in data['consumption']` loop:
two independent `if` checks under the `eim` type guard. -/
def consumption_step (ts : ℕ) (s : SampleData) (cd : RawEIM) : SampleData :=
  if cd.type_ = "eim" then
    let s1 :=
      if cd.measurementType = "net-consumption" then
        { s with net_consumption := some (EIMSample.ofRaw cd ts) }
      else s
    if cd.measurementType = "total-consumption" then
      { s1 with total_consumption := some (EIMSample.ofRaw cd ts) }
    else s1
  else s

/-- One iteration of the `for production_data in data['production']` loop;
`inverters`-typed entries are intentionally ignored. -/
def production_step (ts : ℕ) (s : SampleData) (pd : RawEIM) : SampleData :=
  if pd.type_ = "eim" then
    if pd.measurementType = "production" then
      { s with total_production := some (EIMSample.ofRaw pd ts) }
    else s
  else s

/-- Embeds `SampleData.__init__`. -/
def SampleData.ofPayload (data : RawPayload) (ts : ℕ) : SampleData :=
  data.production.foldl (production_step ts)
    (data.consumption.foldl (consumption_step ts) ⟨ts, none, none, none⟩)

/-- Accessing `.lines` on an aggregate field: Python raises
`AttributeError` when the field is still `None`. -/
def eim_lines_attr (o : Option EIMSample) : Except PyError EIMSample :=
  match o with
  | none => .error (.attributeError "NoneType object has no attribute lines")
  | some e => .ok e

/-- Embeds `SamplingLoop.get_high_rate_points`: enumerates the lines of the
three aggregates (consumption, production, net — in source order), then the
filtered inverters, then (when sampled) the battery points. -/
def get_high_rate_points (cfg : Config) (data : SampleData)
    (inverter_data : List InverterSample) (batteries : Option BatteriesSample) :
    Except PyError (List Point) := do
  let tc ← eim_lines_attr data.total_consumption
  let tp ← eim_lines_attr data.total_production
  let nc ← eim_lines_attr data.net_consumption
  let pts :=
    (tc.lines.enum.map (fun il => idb_point_from_line cfg "consumption" il.1 il.2))
    ++ (tp.lines.enum.map (fun il => idb_point_from_line cfg "production" il.1 il.2))
    ++ (nc.lines.enum.map (fun il => idb_point_from_line cfg "net" il.1 il.2))
    ++ inverter_data.map (point_from_inverter cfg)
  match batteries with
  | none => pure pts
  | some bs => do
      let bps ← points_from_batteries cfg bs
      pure (pts ++ bps)

/-- `production_step` never touches `total_consumption`. -/
theorem production_step_total_consumption (ts : ℕ) (s : SampleData) (pd : RawEIM) :
    (production_step ts s pd).total_consumption = s.total_consumption := by
  unfold production_step
  split
  · split <;> rfl
  · rfl

theorem production_foldl_total_consumption (ts : ℕ) (l : List RawEIM) (s : SampleData) :
    (l.foldl (production_step ts) s).total_consumption = s.total_consumption := by
  induction l generalizing s with
  | nil => rfl
  | cons pd l ih => rw [List.foldl_cons, ih, production_step_total_consumption]

/-- A non-matching entry leaves `total_consumption` unchanged. -/
theorem consumption_step_total_consumption (ts : ℕ) (s : SampleData) (cd : RawEIM)
    (h : ¬ (cd.type_ = "eim" ∧ cd.measurementType = "total-consumption")) :
    (consumption_step ts s cd).total_consumption = s.total_consumption := by
  unfold consumption_step
  by_cases h1 : cd.type_ = "eim"
  · have h2 : ¬ cd.measurementType = "total-consumption" := fun hc => h ⟨h1, hc⟩
    simp only [h1, if_true, h2, if_false]
    by_cases h3 : cd.measurementType = "net-consumption" <;> simp [h3]
  · simp [h1]

theorem consumption_foldl_total_consumption (ts : ℕ) (l : List RawEIM) (s : SampleData)
    (h : ∀ cd ∈ l, ¬ (cd.type_ = "eim" ∧ cd.measurementType = "total-consumption")) :
    (l.foldl (consumption_step ts) s).total_consumption = s.total_consumption := by
  induction l generalizing s with
  | nil => rfl
  | cons cd l ih =>
      rw [List.foldl_cons, ih _ (fun x hx => h x (List.mem_cons_of_mem _ hx)),
        consumption_step_total_consumption ts s cd (h cd (List.mem_cons_self _ _))]

/-- C4 counterexample: the snapshot parsed from an empty payload has its
total-consumption field unset, and processing that snapshot in
`get_high_rate_points` raises (`AttributeError` on the `None` field) instead
of tolerating the unset field. -/
theorem get_high_rate_points_none_counterexample :
    (SampleData.ofPayload ⟨[], []⟩ 0).total_consumption = none ∧
    get_high_rate_points cfg0 (SampleData.ofPayload ⟨[], []⟩ 0) [] none =
      .error (.attributeError "NoneType object has no attribute lines") :=
  ⟨rfl, rfl⟩

/-- `production_step` never touches `net_consumption`. -/
theorem production_step_net_consumption (ts : ℕ) (s : SampleData) (pd : RawEIM) :
    (production_step ts s pd).net_consumption = s.net_consumption := by
  unfold production_step
  split
  · split <;> rfl
  · rfl

theorem production_foldl_net_consumption (ts : ℕ) (l : List RawEIM) (s : SampleData) :
    (l.foldl (production_step ts) s).net_consumption = s.net_consumption := by
  induction l generalizing s with
  | nil => rfl
  | cons pd l ih => rw [List.foldl_cons, ih, production_step_net_consumption]

/-- A non-matching entry leaves `net_consumption` unchanged (the
`total-consumption` branch only rewrites the other field). -/
theorem consumption_step_net_consumption (ts : ℕ) (s : SampleData) (cd : RawEIM)
    (h : ¬ (cd.type_ = "eim" ∧ cd.measurementType = "net-consumption")) :
    (consumption_step ts s cd).net_consumption = s.net_consumption := by
  unfold consumption_step
  by_cases h1 : cd.type_ = "eim"
  · have h2 : ¬ cd.measurementType = "net-consumption" := fun hc => h ⟨h1, hc⟩
    simp only [h1, if_true, h2, if_false]
    by_cases h3 : cd.measurementType = "total-consumption" <;> simp [h3]
  · simp [h1]

theorem consumption_foldl_net_consumption (ts : ℕ) (l : List RawEIM) (s : SampleData)
    (h : ∀ cd ∈ l, ¬ (cd.type_ = "eim" ∧ cd.measurementType = "net-consumption")) :
    (l.foldl (consumption_step ts) s).net_consumption = s.net_consumption := by
  induction l generalizing s with
  | nil => rfl
  | cons cd l ih =>
      rw [List.foldl_cons, ih _ (fun x hx => h x (List.mem_cons_of_mem _ hx)),
        consumption_step_net_consumption ts s cd (h cd (List.mem_cons_self _ _))]

/-- `consumption_step` never touches `total_production`. -/
theorem consumption_step_total_production (ts : ℕ) (s : SampleData) (cd : RawEIM) :
    (consumption_step ts s cd).total_production = s.total_production := by
  unfold consumption_step
  by_cases h1 : cd.type_ = "eim"
  · simp only [h1, if_true]
    by_cases h2 : cd.measurementType = "net-consumption" <;>
      by_cases h3 : cd.measurementType = "total-consumption" <;> simp [h2, h3]
  · simp [h1]

theorem consumption_foldl_total_production (ts : ℕ) (l : List RawEIM) (s : SampleData) :
    (l.foldl (consumption_step ts) s).total_production = s.total_production := by
  induction l generalizing s with
  | nil => rfl
  | cons cd l ih => rw [List.foldl_cons, ih, consumption_step_total_production]

/-- A non-matching entry leaves `total_production` unchanged. -/
theorem production_step_total_production (ts : ℕ) (s : SampleData) (pd : RawEIM)
    (h : ¬ (pd.type_ = "eim" ∧ pd.measurementType = "production")) :
    (production_step ts s pd).total_production = s.total_production := by
  unfold production_step
  by_cases h1 : pd.type_ = "eim"
  · have h2 : ¬ pd.measurementType = "production" := fun hc => h ⟨h1, hc⟩
    simp [h1, h2]
  · simp [h1]

theorem production_foldl_total_production (ts : ℕ) (l : List RawEIM) (s : SampleData)
    (h : ∀ pd ∈ l, ¬ (pd.type_ = "eim" ∧ pd.measurementType = "production")) :
    (l.foldl (production_step ts) s).total_production = s.total_production := by
  induction l generalizing s with
  | nil => rfl
  | cons pd l ih =>
      rw [List.foldl_cons, ih _ (fun x hx => h x (List.mem_cons_of_mem _ hx)),
        production_step_total_production ts s pd (h pd (List.mem_cons_self _ _))]

/-- C4 amended: a measurement type missing from the payload leaves the
corresponding SampleSnapshot field — net-consumption, total-consumption or
total-production — unset (None) rather than raising or defaulting it to
zero; however, processing a snapshot with ANY of the three measurement-type
fields unset DOES raise in `get_high_rate_points` (an AttributeError on the
`None` field) — the cycle survives only because the outer persist-failure
handler catches the exception. -/
theorem sample_missing_field_spec :
    (∀ (p : RawPayload) (ts : ℕ),
      ((∀ cd ∈ p.consumption,
          ¬ (cd.type_ = "eim" ∧ cd.measurementType = "total-consumption")) →
        (SampleData.ofPayload p ts).total_consumption = none) ∧
      ((∀ cd ∈ p.consumption,
          ¬ (cd.type_ = "eim" ∧ cd.measurementType = "net-consumption")) →
        (SampleData.ofPayload p ts).net_consumption = none) ∧
      ((∀ pd ∈ p.production,
          ¬ (pd.type_ = "eim" ∧ pd.measurementType = "production")) →
        (SampleData.ofPayload p ts).total_production = none)) ∧
    (∀ (cfg : Config) (d : SampleData) (inv : List InverterSample)
      (bat : Option BatteriesSample),
      d.total_consumption = none ∨ d.total_production = none ∨
        d.net_consumption = none →
      get_high_rate_points cfg d inv bat =
        .error (.attributeError "NoneType object has no attribute lines")) := by
  constructor
  · intro p ts
    refine ⟨fun h => ?_, fun h => ?_, fun h => ?_⟩
    · unfold SampleData.ofPayload
      rw [production_foldl_total_consumption,
        consumption_foldl_total_consumption _ _ _ h]
    · unfold SampleData.ofPayload
      rw [production_foldl_net_consumption,
        consumption_foldl_net_consumption _ _ _ h]
    · unfold SampleData.ofPayload
      rw [production_foldl_total_production _ _ _ h,
        consumption_foldl_total_production]
  · intro cfg d inv bat h
    unfold get_high_rate_points
    cases htc : d.total_consumption with
    | none => rfl
    | some a =>
        cases htp : d.total_production with
        | none => rfl
        | some b =>
            cases hnc : d.net_consumption with
            | none => rfl
            | some c =>
                rw [htc, htp, hnc] at h
                rcases h with h | h | h <;> exact absurd h (by simp)

/-- Witness for the amended C4, touching each of the three fields: payloads
missing one measurement type leave exactly that field unset, and snapshots
with the first or the last field unset both raise the AttributeError. -/
theorem sample_missing_field_spec_witness :
    (SampleData.ofPayload ⟨[⟨"eim", "net-consumption", []⟩], []⟩ 0).total_consumption
      = none ∧
    (SampleData.ofPayload ⟨[⟨"eim", "total-consumption", []⟩], []⟩ 0).net_consumption
      = none ∧
    (SampleData.ofPayload ⟨[], [⟨"inverters", "production", []⟩]⟩ 0).total_production
      = none ∧
    get_high_rate_points cfg0 ⟨0, none, none, none⟩ [] none =
      .error (.attributeError "NoneType object has no attribute lines") ∧
    get_high_rate_points cfg0 ⟨0, none, some ⟨0, []⟩, some ⟨0, []⟩⟩ [] none =
      .error (.attributeError "NoneType object has no attribute lines") :=
  ⟨(sample_missing_field_spec.1 ⟨[⟨"eim", "net-consumption", []⟩], []⟩ 0).1
      (by intro cd hcd; simp at hcd; simp [hcd]),
   (sample_missing_field_spec.1 ⟨[⟨"eim", "total-consumption", []⟩], []⟩ 0).2.1
      (by intro cd hcd; simp at hcd; simp [hcd]),
   (sample_missing_field_spec.1 ⟨[], [⟨"inverters", "production", []⟩]⟩ 0).2.2
      (by intro pd hpd; simp at hpd; simp [hpd]),
   sample_missing_field_spec.2 cfg0 ⟨0, none, none, none⟩ [] none (Or.inl rfl),
   sample_missing_field_spec.2 cfg0 ⟨0, none, some ⟨0, []⟩, some ⟨0, []⟩⟩ [] none
      (Or.inr (Or.inr rfl))⟩

/-!
Hourly rollup: `SamplingLoop.compute_hourly_Wh_points` walks the tables and
records of the window aggregation query, discarding each reporting inverter
serial from the configured set, then zero-fills the serials that never
reported. The Python local `measurement_type` is assigned only inside the
record loop; the zero-fill loop reads it again when tagging, so with a
non-empty configured-inverter set and an empty query result it is unbound.
The local is embedded as an `Option String` threaded through the fold.
-/

/-- One record of the window aggregation result, with the columns the loop
reads: `measurement-type`, `serial`, `line-idx` and the aggregated value. -/
structure FluxRecord where
  measurement_type : String
  serial : String
  line_idx : String
  value : ℚ
  deriving DecidableEq, Repr

/-- The hourly summary point built for a reporting inverter record. -/
def inverter_hourly_point (cfg : Config) (serial mt : String) (v : ℚ) : Point :=
  { name := "inverter-hourly-summary-" ++ serial
    tags := [("serial", serial)] ++ cfg.inverter_tags serial ++
            [("source", cfg.source_tag), ("measurement-type", mt), ("interval", "1h")]
    fields := [("Wh", v)] }

/-- The hourly summary point built for a per-line record. -/
def line_hourly_point (cfg : Config) (idx mt : String) (v : ℚ) : Point :=
  { name := mt ++ "-hourly-summary-line" ++ idx
    tags := [("line-idx", idx), ("source", cfg.source_tag),
             ("measurement-type", mt), ("interval", "1h")]
    fields := [("Wh", v)] }

/-- The zero-fill point for an inverter serial absent from the window; the
`measurement-type` tag reuses whatever the record loop last left in the
Python local. -/
def hourly_zero_point (cfg : Config) (serial mt : String) : Point :=
  { name := "inverter-hourly-summary-" ++ serial
    tags := [("serial", serial)] ++ cfg.inverter_tags serial ++
            [("source", cfg.source_tag), ("measurement-type", mt), ("interval", "1h")]
    fields := [("Wh", 0)] }

/-- One iteration of the record loop: state is (still-unreported serials,
points so far, current value of the Python local `measurement_type`). -/
def hourly_record_step (cfg : Config)
    (st : List String × List Point × Option String) (record : FluxRecord) :
    List String × List Point × Option String :=
  let mt := record.measurement_type
  if mt = "inverter" then
    (st.1.filter (fun s => s != record.serial),
     st.2.1 ++ [inverter_hourly_point cfg record.serial mt record.value],
     some mt)
  else
    (st.1, st.2.1 ++ [line_hourly_point cfg record.line_idx mt record.value],
     some mt)

/-- Embeds `SamplingLoop.compute_hourly_Wh_points` on an explicit query
result (a list of tables, each a list of records). -/
def compute_hourly_Wh_points (cfg : Config) (result : List (List FluxRecord)) :
    Except PyError (List Point) :=
  let st := (result.foldl (fun acc t => acc ++ t) []).foldl
    (hourly_record_step cfg) (cfg.inverters, [], none)
  match st.1, st.2.2 with
  | [], _ => .ok st.2.1
  | _ :: _, none => .error (.unboundLocal "measurement_type")
  | unreported@(_ :: _), some mt =>
      .ok (st.2.1 ++ unreported.map (fun serial => hourly_zero_point cfg serial mt))

/-- A configuration with one configured inverter serial. -/
def cfg1 : Config := ⟨"envoy", ["SN1"], fun _ => []⟩

/-- C2 evaluation: with one configured inverter, an aggregation result that
contains no records at all makes the zero-fill loop read the never-assigned
local `measurement_type` and raise, instead of producing the zero point; a
non-empty result without the serial does produce exactly one 0.0 point for
it (tagged with the stale last measurement type), and a result where the
serial reports produces no zero point. -/
theorem compute_hourly_empty_result_crash :
    compute_hourly_Wh_points cfg1 [] = .error (.unboundLocal "measurement_type") ∧
    compute_hourly_Wh_points cfg1 [[⟨"net", "", "0", 7⟩]] =
      .ok [line_hourly_point cfg1 "0" "net" 7, hourly_zero_point cfg1 "SN1" "net"] ∧
    compute_hourly_Wh_points cfg1 [[⟨"inverter", "SN1", "", 5⟩]] =
      .ok [inverter_hourly_point cfg1 "SN1" "inverter" 5] :=
  ⟨rfl, rfl, rfl⟩

/-- Witness for the amended C5 at interval 10 and now 3. -/
theorem time_to_next_spec_witness :
    time_to_next 10 3 = 10 - pyFmod 3 10 ∧
    0 < time_to_next 10 3 ∧
    time_to_next 10 3 ≤ 10 ∧
    ∃ k : ℤ, (3 : ℚ) + time_to_next 10 3 = k * 10 :=
  time_to_next_spec 10 3 (by norm_num)
